import Mathlib

/-!
Shallow embedding of `src/yarpOpenPose/main.cpp` from robotology/face-recognition:
the YARP / OpenPose orchestration module (classes `ImageInput`,
`ImageProcessing`, `ImageOutput`, `Module`).

Modelling conventions:
* Port writes and log lines are effects; they are returned explicitly
  (an `Option` value for "what was written, if anything", a `Nat` for the
  number of diagnostic lines emitted).
* The aborting checks `op::check` / `op::checkE` are modelled with `Option`
  (`none` = the check threw and configuration aborted).
* The float payloads carried by `op::Datum` (`poseKeyPoints` entries) are
  never inspected arithmetically by this module - they are only copied into
  the outgoing bottle - so they are modelled as opaque `Int` values.
-/

/-- `cv::Mat`, as far as this module looks at it: the row and column counts
of the pixel buffer. -/
structure CvMat where
  rows : Nat
  cols : Nat
deriving DecidableEq

/-- `cv::Mat::empty()`: no pixels. -/
def CvMat.empty (m : CvMat) : Bool :=
  m.rows * m.cols == 0

/-- `op::Array<float> poseKeyPoints`: a 3-dimensional array of shape
`numberPeople x numberBodyParts x 3` (`getSize(0)`, `getSize(1)`), accessed
flat via `pose[finalIndex]` (modelled by `data`). -/
structure PoseArray where
  numberPeople : Nat
  numberBodyParts : Nat
  data : Nat → Int

/-- `op::Datum`: the three fields the module reads or writes. -/
structure Datum where
  cvInputData : CvMat
  cvOutputData : CvMat
  poseKeyPoints : PoseArray

/-- One element of a `yarp::os::Bottle`: a string (`addString`), a double
(`addDouble`, payload opaque), or a nested list (`addList`). -/
inductive BottleElem where
  | str : String → BottleElem
  | dbl : Int → BottleElem
  | list : List BottleElem → BottleElem

/-- The 19 entries of `ImageProcessing::mapParts`, in key order 0..18. -/
def bodyPartNames : List String :=
  ["Nose", "Neck", "RShoulder", "RElbow", "RWrist", "LShoulder", "LElbow",
   "LWrist", "RHip", "RKnee", "RAnkle", "LHip", "LKnee", "LAnkle", "REye",
   "LEye", "REar", "LEar", "Background"]

/-- `mapParts[bodyPart]` as used in `ImageProcessing::work`:
`std::map::operator[]` returns the stored name for keys 0..18 and
default-inserts an empty `std::string` for any other key. -/
def mapParts (bodyPart : Nat) : String :=
  bodyPartNames.getD bodyPart ""

/-- The `partList` bottle built for one body part of one person in
`ImageProcessing::work`: `(mapParts[bodyPart], pose[finalIndex],
pose[finalIndex+1], pose[finalIndex+2])` with
`finalIndex = 3*(person*numberBodyParts + bodyPart)`. -/
def personRecord (pose : PoseArray) (person bodyPart : Nat) : BottleElem :=
  let finalIndex := 3 * (person * pose.numberBodyParts + bodyPart)
  BottleElem.list
    [ BottleElem.str (mapParts bodyPart),
      BottleElem.dbl (pose.data finalIndex),
      BottleElem.dbl (pose.data (finalIndex + 1)),
      BottleElem.dbl (pose.data (finalIndex + 2)) ]

/-- The `peopleList` bottle built for one person: one `partList` per body
part, for `bodyPart = 0, ..., numberBodyParts - 1` in that order. -/
def personEntry (pose : PoseArray) (person : Nat) : BottleElem :=
  BottleElem.list ((List.range pose.numberBodyParts).map (personRecord pose person))

/-- The `peopleList`s contributed by one datum: one per person, for
`person = 0, ..., numberPeople - 1` in the order the engine returned them.
(The `pose.getNumberDimensions() != 3` guard of the source cannot fire here
because `PoseArray` is 3-dimensional by construction.) -/
def datumPersons (d : Datum) : List BottleElem :=
  (List.range d.poseKeyPoints.numberPeople).map (personEntry d.poseKeyPoints)

/-- The contents of `mainList` after the loop over `*datumsPtr` in
`ImageProcessing::work`. -/
def mainListContents (datums : List Datum) : List BottleElem :=
  datums.flatMap datumPersons

/-- `ImageProcessing::work`.  Returns the bottle written to the
`/<name>/target:o` port, or `none` when no write is performed.  The outer
bottle `peopleBottle` holds the single element `mainList` (added by
`addList()`), and the source guards the write with
`if (peopleBottle.size())` - the size of `peopleBottle`, not of
`mainList`. -/
def work (datumsPtr : Option (List Datum)) : Option (List BottleElem) :=
  match datumsPtr with
  | none => none
  | some datums =>
    if datums.isEmpty then none
    else
      let peopleBottle := [BottleElem.list (mainListContents datums)]
      if peopleBottle.length != 0 then some peopleBottle else none

/-- `ImageOutput::workConsumer`.  Returns the image written to the
`/<name>/image:o` port (`none` = no write) and the number of diagnostic
log lines emitted.  The source checks only that `datumsPtr` is non-null and
non-empty; it never inspects `cvOutputData` itself. -/
def workConsumer (datumsPtr : Option (List Datum)) : Option CvMat × Nat :=
  match datumsPtr with
  | none => (none, 1)
  | some [] => (none, 1)
  | some (d :: _) => (some d.cvOutputData, 0)

/-- `ImageInput::workProducer`.  `mClosed` is the producer state before the
call; `portRead` is the image that the blocking `inPort.read()` would
deliver if a read happens.  Returns the produced datum batch (`none` =
nullptr, i.e. end of stream), the new `mClosed` state, and the number of
port reads the call performed. -/
def workProducer (mClosed : Bool) (portRead : CvMat) :
    Option (List Datum) × Bool × Nat :=
  if mClosed then (none, true, 0)
  else
    let in_cv := portRead
    if in_cv.empty then (none, true, 1)
    else
      (some [{ cvInputData := in_cv, cvOutputData := ⟨0, 0⟩,
               poseKeyPoints := ⟨0, 0, fun _ => 0⟩ }], false, 1)

/-- Repeated calls to `workProducer`, threading `mClosed` through.  The
n-th list entry supplies the image the n-th call would read; each output
is the returned batch and the number of port reads that call performed. -/
def iterateProducer : Bool → List CvMat → List (Option (List Datum) × Nat)
  | _, [] => []
  | st, f :: fs =>
    let r := workProducer st f
    (r.1, r.2.2) :: iterateProducer r.2.1 fs

/-- `op::PoseModel` (the constructors this module mentions). -/
inductive PoseModel where
  | COCO_18
  | MPI_15
  | MPI_15_4
deriving DecidableEq

/-- `op::ScaleMode` (the constructors this module mentions). -/
inductive ScaleMode where
  | InputResolution
  | NetOutputResolution
  | OutputResolution
  | ZeroToOne
  | PlusMinusOne
  | UnsignedChar
deriving DecidableEq

/-- `op::HeatMapType`. -/
inductive HeatMapType where
  | Parts
  | Background
  | PAFs
deriving DecidableEq

/-- `Module::gflagToPoseModel`.  The second component counts the `yError`
lines emitted (1 in the fallback branch, 0 otherwise); the function always
returns a model and never aborts. -/
def gflagToPoseModel (poseModeString : String) : PoseModel × Nat :=
  if poseModeString = "COCO" then (PoseModel.COCO_18, 0)
  else if poseModeString = "MPI" then (PoseModel.MPI_15, 0)
  else if poseModeString = "MPI_4_layers" then (PoseModel.MPI_15_4, 0)
  else (PoseModel.COCO_18, 1)

/-- `Module::gflagToScaleMode`.  The second component counts the `yError`
lines emitted (1 in the fallback branch, 0 otherwise). -/
def gflagToScaleMode (scaleMode : Int) : ScaleMode × Nat :=
  if scaleMode = 0 then (ScaleMode.InputResolution, 0)
  else if scaleMode = 1 then (ScaleMode.NetOutputResolution, 0)
  else if scaleMode = 2 then (ScaleMode.OutputResolution, 0)
  else if scaleMode = 3 then (ScaleMode.ZeroToOne, 0)
  else if scaleMode = 4 then (ScaleMode.PlusMinusOne, 0)
  else (ScaleMode.InputResolution, 1)

/-- `Module::gflagToHeatMaps`: emplaces `Parts`, `Background`, `PAFs` in
that order, each guarded by its flag. -/
def gflagToHeatMaps (hParts hBkg hPAFs : Bool) : List HeatMapType :=
  (if hParts then [HeatMapType.Parts] else [])
    ++ (if hBkg then [HeatMapType.Background] else [])
    ++ (if hPAFs then [HeatMapType.PAFs] else [])

/-- One digit character's numeric value. -/
def digitVal (c : Char) : Nat :=
  c.toNat - Char.toNat '0'

/-- The natural number denoted by a digit-character list, most significant
digit first. -/
def natOfDigitChars (l : List Char) : Nat :=
  l.foldl (fun n c => 10 * n + digitVal c) 0

/-- The natural number denoted by a digit string. -/
def natOfDigits (s : String) : Nat :=
  natOfDigitChars s.data

/-- The digit-run step of `sscanf`'s `%d`: consume one or more leading
decimal digits; fail if there is none. -/
def parseDigits (l : List Char) : Option (Nat × List Char) :=
  let ds := l.takeWhile Char.isDigit
  if ds.isEmpty then none
  else some (natOfDigitChars ds, l.dropWhile Char.isDigit)

/-- `sscanf`'s `%d` after the whitespace skip: an optional sign followed by
one or more digits. -/
def parseIntAux (l : List Char) : Option (Int × List Char) :=
  match l with
  | [] => none
  | c :: rest =>
    if c = '-' then
      match parseDigits rest with
      | none => none
      | some (n, r) => some (-(n : Int), r)
    else if c = '+' then
      match parseDigits rest with
      | none => none
      | some (n, r) => some ((n : Int), r)
    else
      match parseDigits (c :: rest) with
      | none => none
      | some (n, r) => some ((n : Int), r)

/-- `sscanf`'s `%d` conversion: skip whitespace, then an optionally signed
digit run. -/
def parseInt (l : List Char) : Option (Int × List Char) :=
  parseIntAux (l.dropWhile Char.isWhitespace)

/-- `sscanf(s, "%dx%d", &w, &h)`: first component is the value `sscanf`
returns (the number of conversions performed: 0, 1, or 2), second the two
parsed integers when both conversions succeeded.  The literal `x` of the
format must match exactly one `x` right after the first integer. -/
def sscanfDxD (s : String) : Nat × Option (Int × Int) :=
  match parseInt s.data with
  | none => (0, none)
  | some (w, rest) =>
    match rest with
    | [] => (1, none)
    | c :: rest2 =>
      if c = 'x' then
        match parseInt rest2 with
        | none => (1, none)
        | some (h, _) => (2, some (w, h))
      else (1, none)

/-- The `sscanf` + `op::checkE(nRead, 2, ...)` unit of
`Module::gflagsToOpParameters`: `none` means `checkE` threw and
configuration aborted. -/
def parseResolution (s : String) : Option (Int × Int) :=
  let r := sscanfDxD s
  if r.1 = 2 then r.2 else none

/-- The configuration fields of `Module` that `gflagsToOpParameters`
reads. -/
structure ModuleConfig where
  model_name : String
  net_resolution : String
  img_resolution : String
  heatmaps_add_parts : Bool
  heatmaps_add_bkg : Bool
  heatmaps_add_PAFs : Bool
  heatmaps_scale_mode : Int
  scale_mode : Int

/-- The defaults installed by `Module::configure`'s `rf.check` calls. -/
def defaultConfig : ModuleConfig where
  model_name := "COCO"
  net_resolution := "656x368"
  img_resolution := "320x240"
  heatmaps_add_parts := false
  heatmaps_add_bkg := false
  heatmaps_add_PAFs := false
  heatmaps_scale_mode := 2
  scale_mode := 0

/-- The tuple `Module::gflagsToOpParameters` returns. -/
structure OpParameters where
  outputSize : Int × Int
  netInputSize : Int × Int
  poseModel : PoseModel
  scaleMode : ScaleMode
  heatMapTypes : List HeatMapType
  heatMapsScaleMode : ScaleMode

/-- `Module::gflagsToOpParameters`: `none` models an aborting `op::check` /
`op::checkE` (bad resolution string or out-of-range
`heatmaps_scale_mode`), which prevents the module from entering its
running state. -/
def gflagsToOpParameters (m : ModuleConfig) : Option OpParameters :=
  match parseResolution m.img_resolution with
  | none => none
  | some outputSize =>
    match parseResolution m.net_resolution with
    | none => none
    | some netInputSize =>
      let poseModel := (gflagToPoseModel m.model_name).1
      let scaleMode := (gflagToScaleMode m.scale_mode).1
      let heatMapTypes := gflagToHeatMaps m.heatmaps_add_parts
          m.heatmaps_add_bkg m.heatmaps_add_PAFs
      if m.heatmaps_scale_mode ≥ 0 ∧ m.heatmaps_scale_mode ≤ 2 then
        let heatMapsScaleMode :=
          if m.heatmaps_scale_mode = 0 then ScaleMode.PlusMinusOne
          else if m.heatmaps_scale_mode = 1 then ScaleMode.ZeroToOne
          else ScaleMode.UnsignedChar
        some ⟨outputSize, netInputSize, poseModel, scaleMode, heatMapTypes,
              heatMapsScaleMode⟩
      else none

/-- The observable outcome of one `Module::updateModule` cycle: number of
writes on `/target:o`, number of writes on `/image:o`, number of
diagnostic log lines, and the boolean `updateModule` returns. -/
structure CycleOutcome where
  targetWrites : Nat
  imageWrites : Nat
  errorLogs : Nat
  keepRunning : Bool
deriving DecidableEq

/-- `Module::updateModule`.  `datumToProcess` is what `workProducer`
returned this cycle; `emplaceOk` is the result `opWrapper.waitAndEmplace`
would give; `popOk` / `datumProcessed` the result of `opWrapper.waitAndPop`.
When `emplaceOk` is false the `&&` short-circuits, neither publisher runs,
and the single `yError` line is emitted. -/
def updateModule (datumToProcess : Option (List Datum))
    (emplaceOk popOk : Bool) (datumProcessed : Option (List Datum))
    (closing : Bool) : CycleOutcome :=
  match datumToProcess with
  | none => ⟨0, 0, 0, !closing⟩
  | some _ =>
    if emplaceOk && popOk then
      let img := workConsumer datumProcessed
      let tgt := work datumProcessed
      ⟨if tgt.isSome then 1 else 0, if img.1.isSome then 1 else 0,
       img.2, !closing⟩
    else ⟨0, 0, 1, !closing⟩

/-- A concrete datum whose pose holds zero people (19 body parts per
person, as for the COCO model). -/
def zeroPersonDatum : Datum where
  cvInputData := ⟨240, 320⟩
  cvOutputData := ⟨240, 320⟩
  poseKeyPoints := ⟨0, 19, fun _ => 0⟩

/-- A concrete datum with one person and 19 body parts. -/
def onePersonDatum : Datum where
  cvInputData := ⟨240, 320⟩
  cvOutputData := ⟨240, 320⟩
  poseKeyPoints := ⟨1, 19, fun k => (k : Int)⟩

/-- A concrete datum with one person and 20 body parts (one index beyond
the static part-name table). -/
def twentyPartDatum : Datum where
  cvInputData := ⟨240, 320⟩
  cvOutputData := ⟨240, 320⟩
  poseKeyPoints := ⟨1, 20, fun k => (k : Int)⟩

/-- A concrete datum whose rendered output frame is empty (as when
rendering is disabled by configuration). -/
def emptyOutputDatum : Datum where
  cvInputData := ⟨240, 320⟩
  cvOutputData := ⟨0, 0⟩
  poseKeyPoints := ⟨1, 19, fun k => (k : Int)⟩

/-! ### Helper lemmas -/

/-- Once `mClosed` is set, every later call returns nullptr and performs
zero port reads. -/
theorem iterateProducer_closed (gs : List CvMat) :
    iterateProducer true gs = gs.map (fun _ => (none, 0)) := by
  induction gs with
  | nil => rfl
  | cons g gs ih => simp [iterateProducer, workProducer, ih]

/-! ### Claim theorems -/

/-- C1: the claim says `ImageProcessing::work` writes nothing to the
target port for a batch with zero persons.  The code evaluates differently:
on `zeroPersonDatum` (a non-null, non-empty datum vector with zero people)
it writes a bottle containing one empty list, because the guard tests
`peopleBottle.size()` (always 1 after `addList()`) rather than
`mainList.size()`. -/
theorem C1_zero_person_batch_writes :
    work (some [zeroPersonDatum]) = some [BottleElem.list []] := rfl

/-- C3: the claim (and the flag's own help text at main.cpp:317) says
`heatmaps_scale_mode` 0, 1, 2 select [0,1], [-1,1], [0,255].  The code
maps 0 to `PlusMinusOne` ([-1,1]) and 1 to `ZeroToOne` ([0,1]) - the first
two are swapped - while 2 maps to `UnsignedChar` ([0,255]) and any value
outside {0,1,2} aborts configuration, as claimed. -/
theorem C3_heatmaps_scale_mode_eval :
    (gflagsToOpParameters { defaultConfig with heatmaps_scale_mode := 0 }).map
        OpParameters.heatMapsScaleMode = some ScaleMode.PlusMinusOne
    ∧ (gflagsToOpParameters { defaultConfig with heatmaps_scale_mode := 1 }).map
        OpParameters.heatMapsScaleMode = some ScaleMode.ZeroToOne
    ∧ (gflagsToOpParameters { defaultConfig with heatmaps_scale_mode := 2 }).map
        OpParameters.heatMapsScaleMode = some ScaleMode.UnsignedChar
    ∧ gflagsToOpParameters { defaultConfig with heatmaps_scale_mode := 3 } = none
    ∧ gflagsToOpParameters { defaultConfig with heatmaps_scale_mode := -1 } = none :=
  ⟨rfl, rfl, rfl, rfl, rfl⟩

/-- C4: `model_name` "COCO", "MPI", "MPI_4_layers" select `COCO_18`,
`MPI_15`, `MPI_15_4` with no warning; every other string falls back to
`COCO_18` after one `yError` warning, and configuration still succeeds
(`gflagsToOpParameters` returns a value for any `model_name`). -/
theorem C4_pose_model_mapping (s : String)
    (h1 : s ≠ "COCO") (h2 : s ≠ "MPI") (h3 : s ≠ "MPI_4_layers") :
    gflagToPoseModel "COCO" = (PoseModel.COCO_18, 0)
    ∧ gflagToPoseModel "MPI" = (PoseModel.MPI_15, 0)
    ∧ gflagToPoseModel "MPI_4_layers" = (PoseModel.MPI_15_4, 0)
    ∧ gflagToPoseModel s = (PoseModel.COCO_18, 1)
    ∧ (gflagsToOpParameters { defaultConfig with model_name := s }).isSome = true := by
  refine ⟨by decide, by decide, by decide, ?_, ?_⟩
  · simp [gflagToPoseModel, h1, h2, h3]
  · have h320 : parseResolution "320x240" = some (320, 240) := rfl
    have h656 : parseResolution "656x368" = some (656, 368) := rfl
    simp [gflagsToOpParameters, defaultConfig, h320, h656]

/-- C4 witness at the concrete unrecognized string "BODY_25". -/
theorem C4_pose_model_mapping_witness :
    gflagToPoseModel "COCO" = (PoseModel.COCO_18, 0)
    ∧ gflagToPoseModel "MPI" = (PoseModel.MPI_15, 0)
    ∧ gflagToPoseModel "MPI_4_layers" = (PoseModel.MPI_15_4, 0)
    ∧ gflagToPoseModel "BODY_25" = (PoseModel.COCO_18, 1)
    ∧ (gflagsToOpParameters { defaultConfig with model_name := "BODY_25" }).isSome = true :=
  C4_pose_model_mapping "BODY_25" (by decide) (by decide) (by decide)

/-- C5: `scale_mode` 0..4 map, in order, to `InputResolution`,
`NetOutputResolution`, `OutputResolution`, `ZeroToOne`, `PlusMinusOne`
(bijectively: the mapping is injective on {0..4}), and every other integer
falls back to `InputResolution` after one `yError` warning. -/
theorem C5_scale_mode_mapping (m : Int) (hm : m < 0 ∨ 4 < m) :
    gflagToScaleMode 0 = (ScaleMode.InputResolution, 0)
    ∧ gflagToScaleMode 1 = (ScaleMode.NetOutputResolution, 0)
    ∧ gflagToScaleMode 2 = (ScaleMode.OutputResolution, 0)
    ∧ gflagToScaleMode 3 = (ScaleMode.ZeroToOne, 0)
    ∧ gflagToScaleMode 4 = (ScaleMode.PlusMinusOne, 0)
    ∧ (∀ i j : Int, 0 ≤ i → i ≤ 4 → 0 ≤ j → j ≤ 4 →
        (gflagToScaleMode i).1 = (gflagToScaleMode j).1 → i = j)
    ∧ gflagToScaleMode m = (ScaleMode.InputResolution, 1) := by
  refine ⟨by decide, by decide, by decide, by decide, by decide, ?_, ?_⟩
  · intro i j hi0 hi4 hj0 hj4 hij
    have hi : i = 0 ∨ i = 1 ∨ i = 2 ∨ i = 3 ∨ i = 4 := by omega
    have hj : j = 0 ∨ j = 1 ∨ j = 2 ∨ j = 3 ∨ j = 4 := by omega
    rcases hi with rfl | rfl | rfl | rfl | rfl <;>
      rcases hj with rfl | rfl | rfl | rfl | rfl <;>
        first
          | rfl
          | exact absurd hij (by decide)
  · unfold gflagToScaleMode
    rw [if_neg (by omega), if_neg (by omega), if_neg (by omega),
        if_neg (by omega), if_neg (by omega)]

/-- C5 witness at the concrete out-of-range value 5. -/
theorem C5_scale_mode_mapping_witness :
    gflagToScaleMode 0 = (ScaleMode.InputResolution, 0)
    ∧ gflagToScaleMode 1 = (ScaleMode.NetOutputResolution, 0)
    ∧ gflagToScaleMode 2 = (ScaleMode.OutputResolution, 0)
    ∧ gflagToScaleMode 3 = (ScaleMode.ZeroToOne, 0)
    ∧ gflagToScaleMode 4 = (ScaleMode.PlusMinusOne, 0)
    ∧ (∀ i j : Int, 0 ≤ i → i ≤ 4 → 0 ≤ j → j ≤ 4 →
        (gflagToScaleMode i).1 = (gflagToScaleMode j).1 → i = j)
    ∧ gflagToScaleMode 5 = (ScaleMode.InputResolution, 1) :=
  C5_scale_mode_mapping 5 (Or.inr (by decide))

/-- C7: end of stream is permanent.  From a closed producer every call
returns nullptr with zero port reads; from an open producer a single empty
frame yields nullptr (after the one read that observed it) and every
subsequent call returns nullptr with zero port reads, regardless of what
images the port could deliver. -/
theorem C7_end_of_stream_permanent (f : CvMat) (fs gs : List CvMat)
    (hf : f.empty = true) :
    iterateProducer true gs = gs.map (fun _ => (none, 0))
    ∧ iterateProducer false (f :: fs) = (none, 1) :: fs.map (fun _ => (none, 0)) := by
  refine ⟨iterateProducer_closed gs, ?_⟩
  simp [iterateProducer, workProducer, hf, iterateProducer_closed fs]

/-- C7 witness: an empty 0x0 frame followed by a perfectly good 1x1
frame that is never read. -/
theorem C7_end_of_stream_permanent_witness :
    CvMat.empty ⟨0, 0⟩ = true
    ∧ (iterateProducer true [⟨1, 1⟩] = ([⟨1, 1⟩] : List CvMat).map (fun _ => (none, 0))
       ∧ iterateProducer false (⟨0, 0⟩ :: [⟨1, 1⟩]) =
           (none, 1) :: ([⟨1, 1⟩] : List CvMat).map (fun _ => (none, 0))) :=
  ⟨rfl, C7_end_of_stream_permanent ⟨0, 0⟩ [⟨1, 1⟩] [⟨1, 1⟩] rfl⟩

/-- C8 (amended): `ImageOutput::workConsumer` writes nothing and emits
exactly one diagnostic when the batch pointer is null or the datum vector
is empty; the rendered frame itself is never inspected. -/
theorem C8_null_or_empty_no_write (datumsPtr : Option (List Datum))
    (h : datumsPtr = none ∨ datumsPtr = some []) :
    workConsumer datumsPtr = (none, 1) := by
  rcases h with rfl | rfl <;> rfl

/-- C8 witness at the null batch. -/
theorem C8_null_or_empty_no_write_witness :
    workConsumer (none : Option (List Datum)) = (none, 1) :=
  C8_null_or_empty_no_write none (Or.inl rfl)

/-- C8 counterexample to the claim as stated: a non-empty batch whose
rendered output frame is empty (0x0, as when rendering is disabled) is
still written to the image port, with zero diagnostics - not "zero writes
and one diagnostic". -/
theorem C8_empty_frame_counterexample :
    emptyOutputDatum.cvOutputData.empty = true
    ∧ workConsumer (some [emptyOutputDatum]) = (some ⟨0, 0⟩, 0) :=
  ⟨rfl, rfl⟩

/-- C9: when a frame was acquired but `waitAndEmplace` fails, the cycle
emits exactly one diagnostic, performs zero writes on both outbound ports,
and `updateModule` still returns true while `closing` is false. -/
theorem C9_submit_failure (ds : List Datum) (popOk : Bool)
    (datumProcessed : Option (List Datum)) (closing : Bool)
    (h : closing = false) :
    updateModule (some ds) false popOk datumProcessed closing = ⟨0, 0, 1, true⟩ := by
  subst h
  simp [updateModule]

/-- C9 witness at a concrete cycle. -/
theorem C9_submit_failure_witness :
    updateModule (some [onePersonDatum]) false true none false = ⟨0, 0, 1, true⟩ :=
  C9_submit_failure [onePersonDatum] true none false rfl

/-- Helper: `work` on a non-null, non-empty batch always writes the outer
bottle holding `mainList`. -/
theorem work_some (datums : List Datum) (h : datums ≠ []) :
    work (some datums) = some [BottleElem.list (mainListContents datums)] := by
  simp [work, List.isEmpty_iff, h]

/-- Helper: a single-datum batch contributes exactly its own person
lists. -/
theorem mainListContents_single (d : Datum) :
    mainListContents [d] = datumPersons d := by
  simp [mainListContents]

/-- Helper: indexing a mapped range. -/
theorem getElem?_range_map {α : Type} (f : Nat → α) (n i : Nat) (h : i < n) :
    ((List.range n).map f)[i]? = some (f i) := by
  simp [List.getElem?_map, List.getElem?_range, h]

/-- C2: on a single-datum batch whose pose has 19 body parts per person,
`ImageProcessing::work` emits one message whose main list has exactly one
inner list per person, in the order the engine returned them; the i-th
inner list holds exactly 19 four-field records `(partName, x, y,
confidence)` for body parts 0..18 in ascending order, with `partName`
taken from the static table by index and the values read at flat index
`3*(i*19 + j)`. -/
theorem C2_roundtrip (d : Datum) (h19 : d.poseKeyPoints.numberBodyParts = 19) :
    ∃ persons : List BottleElem,
      work (some [d]) = some [BottleElem.list persons]
      ∧ persons.length = d.poseKeyPoints.numberPeople
      ∧ ∀ i, i < d.poseKeyPoints.numberPeople →
          persons[i]? = some (BottleElem.list ((List.range 19).map (fun j =>
            BottleElem.list
              [ BottleElem.str (mapParts j),
                BottleElem.dbl (d.poseKeyPoints.data (3 * (i * 19 + j))),
                BottleElem.dbl (d.poseKeyPoints.data (3 * (i * 19 + j) + 1)),
                BottleElem.dbl (d.poseKeyPoints.data (3 * (i * 19 + j) + 2)) ]))) := by
  refine ⟨datumPersons d, ?_, ?_, ?_⟩
  · rw [work_some [d] (by simp), mainListContents_single]
  · simp [datumPersons]
  · intro i hi
    rw [datumPersons, getElem?_range_map _ _ _ hi]
    simp [personEntry, personRecord, h19]

/-- C2 witness at a concrete one-person, 19-part datum. -/
theorem C2_roundtrip_witness :
    ∃ persons : List BottleElem,
      work (some [onePersonDatum]) = some [BottleElem.list persons]
      ∧ persons.length = onePersonDatum.poseKeyPoints.numberPeople
      ∧ ∀ i, i < onePersonDatum.poseKeyPoints.numberPeople →
          persons[i]? = some (BottleElem.list ((List.range 19).map (fun j =>
            BottleElem.list
              [ BottleElem.str (mapParts j),
                BottleElem.dbl (onePersonDatum.poseKeyPoints.data (3 * (i * 19 + j))),
                BottleElem.dbl (onePersonDatum.poseKeyPoints.data (3 * (i * 19 + j) + 1)),
                BottleElem.dbl (onePersonDatum.poseKeyPoints.data (3 * (i * 19 + j) + 2)) ]))) :=
  C2_roundtrip onePersonDatum rfl

/-- C10: a body-part index `j` outside the static table (19 <= j <
numberBodyParts) neither fails nor is skipped: every person still gets one
record per body part, and the record at index `j` carries the empty string
as its part name (the `std::map` default-inserts an empty string). -/
theorem C10_out_of_range_part_name (d : Datum) (j : Nat) (h19 : 19 ≤ j)
    (hj : j < d.poseKeyPoints.numberBodyParts) :
    mapParts j = ""
    ∧ ∃ persons : List BottleElem,
        work (some [d]) = some [BottleElem.list persons]
        ∧ persons.length = d.poseKeyPoints.numberPeople
        ∧ ∀ i, i < d.poseKeyPoints.numberPeople →
            ∃ parts : List BottleElem,
              persons[i]? = some (BottleElem.list parts)
              ∧ parts.length = d.poseKeyPoints.numberBodyParts
              ∧ parts[j]? = some (BottleElem.list
                  [ BottleElem.str "",
                    BottleElem.dbl (d.poseKeyPoints.data
                      (3 * (i * d.poseKeyPoints.numberBodyParts + j))),
                    BottleElem.dbl (d.poseKeyPoints.data
                      (3 * (i * d.poseKeyPoints.numberBodyParts + j) + 1)),
                    BottleElem.dbl (d.poseKeyPoints.data
                      (3 * (i * d.poseKeyPoints.numberBodyParts + j) + 2)) ]) := by
  have hlen : bodyPartNames.length = 19 := by simp [bodyPartNames]
  have hmp : mapParts j = "" := by
    rw [mapParts, List.getD_eq_default]
    omega
  refine ⟨hmp, datumPersons d, ?_, ?_, ?_⟩
  · rw [work_some [d] (by simp), mainListContents_single]
  · simp [datumPersons]
  · intro i hi
    refine ⟨(List.range d.poseKeyPoints.numberBodyParts).map
        (personRecord d.poseKeyPoints i), ?_, ?_, ?_⟩
    · rw [datumPersons, getElem?_range_map _ _ _ hi]
      rfl
    · simp
    · rw [getElem?_range_map _ _ _ hj]
      simp [personRecord, hmp]

/-- C10 witness at a concrete one-person, 20-part datum and index 19. -/
theorem C10_out_of_range_part_name_witness :
    mapParts 19 = ""
    ∧ ∃ persons : List BottleElem,
        work (some [twentyPartDatum]) = some [BottleElem.list persons]
        ∧ persons.length = twentyPartDatum.poseKeyPoints.numberPeople
        ∧ ∀ i, i < twentyPartDatum.poseKeyPoints.numberPeople →
            ∃ parts : List BottleElem,
              persons[i]? = some (BottleElem.list parts)
              ∧ parts.length = twentyPartDatum.poseKeyPoints.numberBodyParts
              ∧ parts[19]? = some (BottleElem.list
                  [ BottleElem.str "",
                    BottleElem.dbl (twentyPartDatum.poseKeyPoints.data
                      (3 * (i * twentyPartDatum.poseKeyPoints.numberBodyParts + 19))),
                    BottleElem.dbl (twentyPartDatum.poseKeyPoints.data
                      (3 * (i * twentyPartDatum.poseKeyPoints.numberBodyParts + 19) + 1)),
                    BottleElem.dbl (twentyPartDatum.poseKeyPoints.data
                      (3 * (i * twentyPartDatum.poseKeyPoints.numberBodyParts + 19) + 2)) ]) :=
  C10_out_of_range_part_name twentyPartDatum 19 (by omega) (by decide)

/-- Helper: `x` is not a digit. -/
theorem isDigit_x_false : Char.isDigit 'x' = false := by decide

/-- Helper: a digit character differs from any non-digit character. -/
theorem isDigit_ne {c x : Char} (h : c.isDigit = true) (hx : x.isDigit = false) :
    c ≠ x := by
  rintro rfl
  rw [h] at hx
  exact absurd hx (by decide)

/-- Helper: a digit character is not whitespace. -/
theorem digit_not_ws {c : Char} (h : c.isDigit = true) : c.isWhitespace = false := by
  by_contra hw
  rw [Bool.not_eq_false] at hw
  simp [Char.isWhitespace] at hw
  rcases hw with ((h1 | h1) | h1) | h1 <;> subst h1 <;> exact absurd h (by decide)

/-- Helper: the digit run of `digits ++ 'x' :: tail` is exactly `digits`. -/
theorem takeWhile_digits_append (a b : List Char)
    (ha : ∀ c ∈ a, c.isDigit = true) :
    (a ++ 'x' :: b).takeWhile Char.isDigit = a := by
  induction a with
  | nil => simp [List.takeWhile_cons, isDigit_x_false]
  | cons c cs ih =>
    have hc : c.isDigit = true := ha c (by simp)
    have ih2 := ih (fun d hd => ha d (by simp [hd]))
    simp [List.takeWhile_cons, hc, ih2]

/-- Helper: dropping the digit run of `digits ++ 'x' :: tail` leaves
`'x' :: tail`. -/
theorem dropWhile_digits_append (a b : List Char)
    (ha : ∀ c ∈ a, c.isDigit = true) :
    (a ++ 'x' :: b).dropWhile Char.isDigit = 'x' :: b := by
  induction a with
  | nil => simp [List.dropWhile_cons, isDigit_x_false]
  | cons c cs ih =>
    have hc : c.isDigit = true := ha c (by simp)
    have ih2 := ih (fun d hd => ha d (by simp [hd]))
    simp [List.dropWhile_cons, hc, ih2]

/-- Helper: the digit run of an all-digit list is the whole list. -/
theorem takeWhile_digits_all (a : List Char) (ha : ∀ c ∈ a, c.isDigit = true) :
    a.takeWhile Char.isDigit = a := by
  induction a with
  | nil => rfl
  | cons c cs ih =>
    have hc : c.isDigit = true := ha c (by simp)
    have ih2 := ih (fun d hd => ha d (by simp [hd]))
    simp [List.takeWhile_cons, hc, ih2]

/-- Helper: dropping the digit run of an all-digit list leaves nothing. -/
theorem dropWhile_digits_all (a : List Char) (ha : ∀ c ∈ a, c.isDigit = true) :
    a.dropWhile Char.isDigit = [] := by
  induction a with
  | nil => rfl
  | cons c cs ih =>
    have hc : c.isDigit = true := ha c (by simp)
    have ih2 := ih (fun d hd => ha d (by simp [hd]))
    simp [List.dropWhile_cons, hc, ih2]

/-- Helper: the whitespace skip does nothing when the head is a digit. -/
theorem dropWhile_ws_of_digit_head (c : Char) (l : List Char)
    (hc : c.isDigit = true) :
    (c :: l).dropWhile Char.isWhitespace = c :: l := by
  simp [List.dropWhile_cons, digit_not_ws hc]

/-- Helper: `parseDigits` on `digits ++ 'x' :: tail`. -/
theorem parseDigits_append (a b : List Char) (h0 : a ≠ [])
    (ha : ∀ c ∈ a, c.isDigit = true) :
    parseDigits (a ++ 'x' :: b) = some (natOfDigitChars a, 'x' :: b) := by
  simp only [parseDigits, takeWhile_digits_append a b ha,
    dropWhile_digits_append a b ha]
  simp [List.isEmpty_iff, h0]

/-- Helper: `parseDigits` on an all-digit list. -/
theorem parseDigits_all (a : List Char) (h0 : a ≠ [])
    (ha : ∀ c ∈ a, c.isDigit = true) :
    parseDigits a = some (natOfDigitChars a, []) := by
  simp only [parseDigits, takeWhile_digits_all a ha, dropWhile_digits_all a ha]
  simp [List.isEmpty_iff, h0]

/-- Helper: `parseIntAux` on `digits ++ 'x' :: tail`. -/
theorem parseIntAux_digits_append (a b : List Char) (h0 : a ≠ [])
    (ha : ∀ c ∈ a, c.isDigit = true) :
    parseIntAux (a ++ 'x' :: b) = some ((natOfDigitChars a : Int), 'x' :: b) := by
  cases a with
  | nil => exact absurd rfl h0
  | cons c cs =>
    have hc : c.isDigit = true := ha c (by simp)
    have hminus : c ≠ '-' := isDigit_ne hc (by decide)
    have hplus : c ≠ '+' := isDigit_ne hc (by decide)
    simp only [List.cons_append, parseIntAux]
    rw [if_neg hminus, if_neg hplus, ← List.cons_append,
      parseDigits_append (c :: cs) b h0 ha]

/-- Helper: `parseIntAux` on an all-digit list. -/
theorem parseIntAux_digits_all (a : List Char) (h0 : a ≠ [])
    (ha : ∀ c ∈ a, c.isDigit = true) :
    parseIntAux a = some ((natOfDigitChars a : Int), []) := by
  cases a with
  | nil => exact absurd rfl h0
  | cons c cs =>
    have hc : c.isDigit = true := ha c (by simp)
    have hminus : c ≠ '-' := isDigit_ne hc (by decide)
    have hplus : c ≠ '+' := isDigit_ne hc (by decide)
    simp only [parseIntAux]
    rw [if_neg hminus, if_neg hplus, parseDigits_all (c :: cs) h0 ha]

/-- Helper: `parseInt` on `digits ++ 'x' :: tail`. -/
theorem parseInt_digits_append (a b : List Char) (h0 : a ≠ [])
    (ha : ∀ c ∈ a, c.isDigit = true) :
    parseInt (a ++ 'x' :: b) = some ((natOfDigitChars a : Int), 'x' :: b) := by
  cases a with
  | nil => exact absurd rfl h0
  | cons c cs =>
    rw [parseInt, List.cons_append,
      dropWhile_ws_of_digit_head c _ (ha c (by simp)), ← List.cons_append]
    exact parseIntAux_digits_append (c :: cs) b h0 ha

/-- Helper: `parseInt` on an all-digit list. -/
theorem parseInt_digits_all (a : List Char) (h0 : a ≠ [])
    (ha : ∀ c ∈ a, c.isDigit = true) :
    parseInt a = some ((natOfDigitChars a : Int), []) := by
  cases a with
  | nil => exact absurd rfl h0
  | cons c cs =>
    rw [parseInt, dropWhile_ws_of_digit_head c _ (ha c (by simp))]
    exact parseIntAux_digits_all (c :: cs) h0 ha

/-- Helper: the remainder `parseDigits` returns comes from its input. -/
theorem parseDigits_rest_sublist (l : List Char) (n : Nat) (r : List Char)
    (h : parseDigits l = some (n, r)) : List.Sublist r l := by
  simp only [parseDigits] at h
  split at h
  · exact absurd h (by simp)
  · rw [Option.some.injEq, Prod.mk.injEq] at h
    obtain ⟨h1, h2⟩ := h
    subst h2
    exact List.dropWhile_sublist _

/-- Helper: the remainder `parseIntAux` returns comes from its input. -/
theorem parseIntAux_rest_sublist (l : List Char) (n : Int) (r : List Char)
    (h : parseIntAux l = some (n, r)) : List.Sublist r l := by
  cases l with
  | nil => simp [parseIntAux] at h
  | cons c cs =>
    simp only [parseIntAux] at h
    by_cases hm : c = '-'
    · rw [if_pos hm] at h
      cases hpd : parseDigits cs with
      | none => rw [hpd] at h; exact absurd h (by simp)
      | some p =>
        obtain ⟨n2, r2⟩ := p
        rw [hpd] at h
        rw [Option.some.injEq, Prod.mk.injEq] at h
        obtain ⟨h1, h2⟩ := h
        subst h2
        exact (parseDigits_rest_sublist cs n2 r2 hpd).cons c
    · rw [if_neg hm] at h
      by_cases hp : c = '+'
      · rw [if_pos hp] at h
        cases hpd : parseDigits cs with
        | none => rw [hpd] at h; exact absurd h (by simp)
        | some p =>
          obtain ⟨n2, r2⟩ := p
          rw [hpd] at h
          rw [Option.some.injEq, Prod.mk.injEq] at h
          obtain ⟨h1, h2⟩ := h
          subst h2
          exact (parseDigits_rest_sublist cs n2 r2 hpd).cons c
      · rw [if_neg hp] at h
        cases hpd : parseDigits (c :: cs) with
        | none => rw [hpd] at h; exact absurd h (by simp)
        | some p =>
          obtain ⟨n2, r2⟩ := p
          rw [hpd] at h
          rw [Option.some.injEq, Prod.mk.injEq] at h
          obtain ⟨h1, h2⟩ := h
          subst h2
          exact parseDigits_rest_sublist (c :: cs) n2 r2 hpd

/-- Helper: the remainder `parseInt` returns comes from its input. -/
theorem parseInt_rest_sublist (l : List Char) (n : Int) (r : List Char)
    (h : parseInt l = some (n, r)) : List.Sublist r l := by
  simp only [parseInt] at h
  exact (parseIntAux_rest_sublist _ n r h).trans (List.dropWhile_sublist _)

/-- Helper: a string without any `x` character never reaches two
conversions, so `checkE` aborts. -/
theorem parseResolution_no_x (s : String) (hs : ∀ c ∈ s.data, c ≠ 'x') :
    parseResolution s = none := by
  cases hpi : parseInt s.data with
  | none => simp [parseResolution, sscanfDxD, hpi]
  | some p =>
    obtain ⟨w, rest⟩ := p
    cases rest with
    | nil => simp [parseResolution, sscanfDxD, hpi]
    | cons c r2 =>
      have hc : c ∈ s.data :=
        (parseInt_rest_sublist _ _ _ hpi).subset (by simp)
      have hcx : c ≠ 'x' := hs c hc
      simp [parseResolution, sscanfDxD, hpi, hcx]

/-- Helper: a string whose first character is not a digit, sign, or
whitespace fails the first `%d` conversion, so `checkE` aborts. -/
theorem parseResolution_bad_head (t : String)
    (ht : ∀ c ∈ t.data.head?.toList,
      c.isDigit = false ∧ c ≠ '+' ∧ c ≠ '-' ∧ c.isWhitespace = false) :
    parseResolution t = none := by
  cases hd : t.data with
  | nil => simp [parseResolution, sscanfDxD, parseInt, parseIntAux, hd]
  | cons c cs =>
    obtain ⟨h1, h2, h3, h4⟩ := ht c (by simp [hd])
    have hpi : parseInt t.data = none := by
      rw [parseInt, hd, List.dropWhile_cons, if_neg (by simp [h4])]
      simp only [parseIntAux]
      rw [if_neg h3, if_neg h2]
      simp [parseDigits, List.takeWhile_cons, h1]
    simp [parseResolution, sscanfDxD, hpi]

/-- Helper: a well-formed `WxH` string parses to the numbers denoted by
its two digit runs. -/
theorem parseResolution_valid (a b : String)
    (ha0 : a.data ≠ []) (ha : ∀ c ∈ a.data, c.isDigit = true)
    (hb0 : b.data ≠ []) (hb : ∀ c ∈ b.data, c.isDigit = true) :
    parseResolution (a ++ "x" ++ b) =
      some ((natOfDigits a : Int), (natOfDigits b : Int)) := by
  have hx : ("x" : String).data = ['x'] := rfl
  have hdata : (a ++ "x" ++ b).data = a.data ++ 'x' :: b.data := by
    rw [String.data_append, String.data_append, hx]
    simp
  have h1 := parseInt_digits_append a.data b.data ha0 ha
  have h2 := parseInt_digits_all b.data hb0 hb
  simp [parseResolution, sscanfDxD, hdata, h1, h2, natOfDigits]

/-- C6: a valid `WxH` resolution string (a nonempty digit run, one `x`, a
nonempty digit run) parses to exactly the two integers denoted by the
digit runs; a string with no `x` separator, or one whose width field does
not start numerically, makes `sscanf` return fewer than two conversions, so
`op::checkE` fires and `gflagsToOpParameters` aborts configuration. -/
theorem C6_resolution_parsing (a b s t : String)
    (ha0 : a.data ≠ []) (ha : ∀ c ∈ a.data, c.isDigit = true)
    (hb0 : b.data ≠ []) (hb : ∀ c ∈ b.data, c.isDigit = true)
    (hs : ∀ c ∈ s.data, c ≠ 'x')
    (ht : ∀ c ∈ t.data.head?.toList,
      c.isDigit = false ∧ c ≠ '+' ∧ c ≠ '-' ∧ c.isWhitespace = false) :
    parseResolution (a ++ "x" ++ b) =
      some ((natOfDigits a : Int), (natOfDigits b : Int))
    ∧ parseResolution s = none
    ∧ parseResolution t = none
    ∧ gflagsToOpParameters { defaultConfig with img_resolution := s } = none
    ∧ gflagsToOpParameters { defaultConfig with net_resolution := t } = none := by
  have h2 := parseResolution_no_x s hs
  have h3 := parseResolution_bad_head t ht
  refine ⟨parseResolution_valid a b ha0 ha hb0 hb, h2, h3, ?_, ?_⟩
  · simp [gflagsToOpParameters, h2]
  · have h320 : parseResolution "320x240" = some (320, 240) := rfl
    simp [gflagsToOpParameters, defaultConfig, h320, h3]

/-- C6 witness: the documented example "656x368", a string with no `x`,
and a string with a non-numeric width. -/
theorem C6_resolution_parsing_witness :
    parseResolution ("656" ++ "x" ++ "368") =
      some ((natOfDigits "656" : Int), (natOfDigits "368" : Int))
    ∧ parseResolution "abc" = none
    ∧ parseResolution "wx368" = none
    ∧ gflagsToOpParameters { defaultConfig with img_resolution := "abc" } = none
    ∧ gflagsToOpParameters { defaultConfig with net_resolution := "wx368" } = none :=
  C6_resolution_parsing "656" "368" "abc" "wx368" (by decide) (by decide)
    (by decide) (by decide) (by decide) (by decide)
